import Mathlib

set_option linter.unusedSectionVars false

/-
  Verification of the sourcecred application-state controller and address
  codec.

  Embedding conventions:
  * JavaScript strings are modelled as `List Char`; `String.prototype.split`
    with a one-character separator is `splitOnChar`; `includes` is list
    membership.
  * Functions that `throw` are modelled as `Option`-returning (`none` = the
    call threw).
  * The opaque collaborator value types (`Repo`, `EdgeEvaluator`,
    `GraphWithAdapters`, `PagerankNodeDecomposition`) are type parameters
    with decidable equality, matching lodash `isEqual`'s structural
    comparison (reference comparison for functions, which is an equality
    test on the opaque values).
-/

/-! ## Address codec (from the address module) -/

/-- Address record: `{repositoryName, pluginName, id}`, each field a
JavaScript string (modelled as `List Char`). -/
structure Address where
  repositoryName : List Char
  pluginName : List Char
  id : List Char
deriving DecidableEq

/-- JavaScript `string.split(d)` for a one-character separator `d`:
splits a string into the (always nonempty) list of chunks between
occurrences of `d`. -/
def splitOnChar (d : Char) : List Char → List (List Char)
  | [] => [[]]
  | c :: rest =>
    match splitOnChar d rest with
    | [] => [[c]]
    | h :: t => if c = d then [] :: h :: t else (c :: h) :: t

/-- The `addressToString` encoder: throws (returns `none`) when any field
contains the delimiter `$`; otherwise returns
`pluginName + "$" + repositoryName + "$" + id`. -/
def addressToString (address : Address) : Option (List Char) :=
  if '$' ∈ address.pluginName then none
  else if '$' ∈ address.repositoryName then none
  else if '$' ∈ address.id then none
  else some (address.pluginName ++ ('$' :: (address.repositoryName ++ ('$' :: address.id))))

/-- The `stringToAddress` decoder: splits on `$`, throws (returns `none`)
unless there are exactly three parts, and otherwise rebuilds the address
with `pluginName = parts[0]`, `repositoryName = parts[1]`, `id = parts[2]`. -/
def stringToAddress (string : List Char) : Option Address :=
  match splitOnChar '$' string with
  | [p, r, i] => some (Address.mk r p i)
  | _ => none

/-! ### Codec lemmas -/

theorem splitOnChar_ne_nil (d : Char) (s : List Char) : splitOnChar d s ≠ [] := by
  cases s with
  | nil => simp [splitOnChar]
  | cons c rest =>
    simp only [splitOnChar]
    split
    · simp
    · split <;> simp

theorem splitOnChar_no_delim (d : Char) (a : List Char) (ha : d ∉ a) :
    splitOnChar d a = [a] := by
  induction a with
  | nil => rfl
  | cons c rest ih =>
    have hc : c ≠ d := fun h => ha (h ▸ List.mem_cons_self c rest)
    have hrest : d ∉ rest := fun h => ha (List.mem_cons_of_mem c h)
    simp [splitOnChar, ih hrest, hc]

theorem splitOnChar_append_delim (d : Char) (a s : List Char) (ha : d ∉ a) :
    splitOnChar d (a ++ d :: s) = a :: splitOnChar d s := by
  induction a with
  | nil =>
    rcases h : splitOnChar d s with _ | ⟨h1, t⟩
    · exact absurd h (splitOnChar_ne_nil d s)
    · simp [splitOnChar, h]
  | cons c rest ih =>
    have hc : c ≠ d := fun h => ha (h ▸ List.mem_cons_self c rest)
    have hrest : d ∉ rest := fun h => ha (List.mem_cons_of_mem c h)
    rcases h : splitOnChar d (rest ++ d :: s) with _ | ⟨h1, t⟩
    · exact absurd h (splitOnChar_ne_nil d _)
    · have := ih hrest
      rw [h] at this
      cases this
      simp [splitOnChar, h, hc]

theorem splitOnChar_length (d : Char) (s : List Char) :
    (splitOnChar d s).length = s.count d + 1 := by
  induction s with
  | nil => rfl
  | cons c rest ih =>
    rcases h : splitOnChar d rest with _ | ⟨h1, t⟩
    · exact absurd h (splitOnChar_ne_nil d rest)
    · by_cases hc : c = d
      · subst hc
        simp [splitOnChar, h, List.count_cons]
        rw [h] at ih
        simpa using ih
      · simp [splitOnChar, h, hc, List.count_cons]
        rw [h] at ih
        simpa [Ne.symm hc] using ih

/-! ## Application state machine (from credExplorer/state.js)

The machine mutates a single shared cell through injected get/set
accessors; every operation is therefore a function on the cell's value.
An asynchronous operation suspends exactly once (at the external
loader/scorer call); the net effect of everything that other operations
commit while it is suspended is a function `itf : AppState → AppState`
applied to the state that the operation itself committed before
suspending (its `loadingState`). The external collaborator's outcome is
an `Option` argument: `some v` for a resolved promise with value `v`,
`none` for a rejected one (the source catches the rejection). -/

/-- LoadingState: `"NOT_LOADING" | "LOADING" | "FAILED"`. -/
inductive LoadingState where
  | NOT_LOADING
  | LOADING
  | FAILED
deriving DecidableEq

/-- AppSubstate: the three substate variants of an initialized state,
parameterized by the opaque collaborator types `GWA` (GraphWithAdapters)
and `PND` (PagerankNodeDecomposition). -/
inductive AppSubstate (GWA PND : Type) where
  | READY_TO_LOAD_GRAPH (loading : LoadingState)
  | READY_TO_RUN_PAGERANK (graphWithAdapters : GWA) (loading : LoadingState)
  | PAGERANK_EVALUATED (graphWithAdapters : GWA)
      (pagerankNodeDecomposition : PND) (loading : LoadingState)
deriving DecidableEq

/-- AppState: `Uninitialized` (nullable `edgeEvaluator` and `repo` fields)
or `Initialized` (both present, plus a substate). -/
inductive AppState (Repo EdgeEvaluator GWA PND : Type) where
  | UNINITIALIZED (edgeEvaluator : Option EdgeEvaluator) (repo : Option Repo)
  | INITIALIZED (edgeEvaluator : EdgeEvaluator) (repo : Repo)
      (substate : AppSubstate GWA PND)
deriving DecidableEq

section StateMachine

variable {Repo EdgeEvaluator GWA PND : Type}
variable [DecidableEq Repo] [DecidableEq EdgeEvaluator]
variable [DecidableEq GWA] [DecidableEq PND]

/-- `initialState()`: `{type: "UNINITIALIZED", repo: null, edgeEvaluator: null}`. -/
def initialState : AppState Repo EdgeEvaluator GWA PND :=
  .UNINITIALIZED none none

/-- `_maybeInitialize`, on the two fields of an UNINITIALIZED state: when
both `repo` and `edgeEvaluator` are non-null, move to INITIALIZED with
substate `READY_TO_LOAD_GRAPH / NOT_LOADING`; otherwise stay put. -/
def maybeInitialize (edgeEvaluator : Option EdgeEvaluator) (repo : Option Repo) :
    AppState Repo EdgeEvaluator GWA PND :=
  match repo, edgeEvaluator with
  | some r, some e => .INITIALIZED e r (.READY_TO_LOAD_GRAPH .NOT_LOADING)
  | _, _ => .UNINITIALIZED edgeEvaluator repo

/-- `setRepo(repo)`: on UNINITIALIZED, store `repo` and re-check
auto-initialization; on INITIALIZED, replace `repo` and reset the
substate to `READY_TO_LOAD_GRAPH / NOT_LOADING`. -/
def setRepo (repo : Repo) :
    AppState Repo EdgeEvaluator GWA PND → AppState Repo EdgeEvaluator GWA PND
  | .UNINITIALIZED e _ => maybeInitialize e (some repo)
  | .INITIALIZED e _ _ =>
      .INITIALIZED e repo (.READY_TO_LOAD_GRAPH .NOT_LOADING)

/-- `setEdgeEvaluator(edgeEvaluator)`: on UNINITIALIZED, store the
evaluator and re-check auto-initialization; on INITIALIZED, replace only
the `edgeEvaluator` field (the substate is untouched). -/
def setEdgeEvaluator (edgeEvaluator : EdgeEvaluator) :
    AppState Repo EdgeEvaluator GWA PND → AppState Repo EdgeEvaluator GWA PND
  | .UNINITIALIZED _ r => maybeInitialize (some edgeEvaluator) r
  | .INITIALIZED _ r substate => .INITIALIZED edgeEvaluator r substate

/-- `loadGraph(assets)`: requires an INITIALIZED state with substate
`READY_TO_LOAD_GRAPH` (else throws: `none`); commits the `LOADING`
marker, awaits the loader (`loaderResult`, with `itf` the interference
applied to the live cell during the await), builds the candidate state,
and commits it only when the live state still equals the committed
`loadingState`. Returns the final live state and the boolean the caller
receives. -/
def loadGraph (s : AppState Repo EdgeEvaluator GWA PND) (loaderResult : Option GWA)
    (itf : AppState Repo EdgeEvaluator GWA PND → AppState Repo EdgeEvaluator GWA PND) :
    Option (AppState Repo EdgeEvaluator GWA PND × Bool) :=
  match s with
  | .INITIALIZED e r (.READY_TO_LOAD_GRAPH _) =>
      let loadingState : AppState Repo EdgeEvaluator GWA PND :=
        .INITIALIZED e r (.READY_TO_LOAD_GRAPH .LOADING)
      let newState : AppState Repo EdgeEvaluator GWA PND :=
        match loaderResult with
        | some gwa => .INITIALIZED e r (.READY_TO_RUN_PAGERANK gwa .NOT_LOADING)
        | none => .INITIALIZED e r (.READY_TO_LOAD_GRAPH .FAILED)
      let success : Bool := loaderResult.isSome
      let live := itf loadingState
      if live = loadingState then some (newState, success) else some (live, false)
  | _ => none

/-- `runPagerank(totalScoreNodePrefix)`: requires an INITIALIZED state
whose substate is not `READY_TO_LOAD_GRAPH` (else throws: `none`);
commits the `LOADING` marker, awaits the scorer (`pagerankResult`),
builds the candidate, and commits it only when the live state still
equals the committed `loadingState`. The method's promise resolves to
`undefined`: its caller-visible value is the `Unit` component. -/
def runPagerank (s : AppState Repo EdgeEvaluator GWA PND) (pagerankResult : Option PND)
    (itf : AppState Repo EdgeEvaluator GWA PND → AppState Repo EdgeEvaluator GWA PND) :
    Option (AppState Repo EdgeEvaluator GWA PND × Unit) :=
  match s with
  | .INITIALIZED e r (.READY_TO_RUN_PAGERANK gwa _) =>
      let loadingState : AppState Repo EdgeEvaluator GWA PND :=
        .INITIALIZED e r (.READY_TO_RUN_PAGERANK gwa .LOADING)
      let newState : AppState Repo EdgeEvaluator GWA PND :=
        match pagerankResult with
        | some pnd => .INITIALIZED e r (.PAGERANK_EVALUATED gwa pnd .NOT_LOADING)
        | none => .INITIALIZED e r (.READY_TO_RUN_PAGERANK gwa .FAILED)
      let live := itf loadingState
      if live = loadingState then some (newState, ()) else some (live, ())
  | .INITIALIZED e r (.PAGERANK_EVALUATED gwa pnd _) =>
      let loadingState : AppState Repo EdgeEvaluator GWA PND :=
        .INITIALIZED e r (.PAGERANK_EVALUATED gwa pnd .LOADING)
      let newState : AppState Repo EdgeEvaluator GWA PND :=
        match pagerankResult with
        | some pnd2 => .INITIALIZED e r (.PAGERANK_EVALUATED gwa pnd2 .NOT_LOADING)
        | none => .INITIALIZED e r (.PAGERANK_EVALUATED gwa pnd .FAILED)
      let live := itf loadingState
      if live = loadingState then some (newState, ()) else some (live, ())
  | _ => none

/-- `loadGraphAndRunPagerank(assets, totalScoreNodePrefix)`: throws on
UNINITIALIZED; from `READY_TO_LOAD_GRAPH` awaits `loadGraph` and chains
into `runPagerank` only when it returned `true`; from the other two
substates goes straight to `runPagerank`. `itfLoad` and `itfScore` are
the interference during the two awaits. The promise resolves to
`undefined`, so only the final live state (or a throw) is returned. -/
def loadGraphAndRunPagerank (s : AppState Repo EdgeEvaluator GWA PND)
    (loaderResult : Option GWA) (pagerankResult : Option PND)
    (itfLoad itfScore :
      AppState Repo EdgeEvaluator GWA PND → AppState Repo EdgeEvaluator GWA PND) :
    Option (AppState Repo EdgeEvaluator GWA PND) :=
  match s with
  | .UNINITIALIZED _ _ => none
  | .INITIALIZED _ _ (.READY_TO_LOAD_GRAPH _) =>
      match loadGraph s loaderResult itfLoad with
      | none => none
      | some (s1, loadedGraph) =>
          if loadedGraph then (runPagerank s1 pagerankResult itfScore).map Prod.fst
          else some s1
  | .INITIALIZED _ _ _ => (runPagerank s pagerankResult itfScore).map Prod.fst

end StateMachine

/-! ## Claim theorems -/

section Claims

variable {Repo EdgeEvaluator GWA PND : Type}
variable [DecidableEq Repo] [DecidableEq EdgeEvaluator]
variable [DecidableEq GWA] [DecidableEq PND]

/-- C4: for every address whose three fields are free of the delimiter
`$`, decoding the encoding yields the address back:
`stringToAddress (addressToString a) = a`. -/
theorem stringToAddress_addressToString (a : Address)
    (h1 : '$' ∉ a.pluginName) (h2 : '$' ∉ a.repositoryName) (h3 : '$' ∉ a.id) :
    (addressToString a).bind stringToAddress = some a := by
  have hsplit : splitOnChar '$'
      (a.pluginName ++ ('$' :: (a.repositoryName ++ ('$' :: a.id))))
      = [a.pluginName, a.repositoryName, a.id] := by
    rw [splitOnChar_append_delim _ _ _ h1, splitOnChar_append_delim _ _ _ h2,
      splitOnChar_no_delim _ _ h3]
  simp [addressToString, h1, h2, h3, stringToAddress, hsplit]

/-- Witness for C4 at a concrete address. -/
theorem stringToAddress_addressToString_w :
    (addressToString (Address.mk "sourcecred".data "plugin".data "node-1".data)).bind
        stringToAddress
      = some (Address.mk "sourcecred".data "plugin".data "node-1".data) :=
  stringToAddress_addressToString _ (by decide) (by decide) (by decide)

/-- C5: `addressToString` throws exactly when some field of the address
contains the delimiter `$`, and `stringToAddress` throws exactly when the
input does not contain exactly two occurrences of `$` (equivalently, does
not split into exactly three parts); neither silently misparses. -/
theorem codec_error_iff :
    (∀ a : Address, addressToString a = none ↔
      ('$' ∈ a.pluginName ∨ '$' ∈ a.repositoryName ∨ '$' ∈ a.id))
    ∧ (∀ s : List Char, stringToAddress s = none ↔ s.count '$' ≠ 2) := by
  constructor
  · intro a
    by_cases h1 : '$' ∈ a.pluginName
    · simp [addressToString, h1]
    · by_cases h2 : '$' ∈ a.repositoryName
      · simp [addressToString, h1, h2]
      · by_cases h3 : '$' ∈ a.id <;> simp [addressToString, h1, h2, h3]
  · intro s
    have hlen := splitOnChar_length '$' s
    rcases h : splitOnChar '$' s with _ | ⟨p, _ | ⟨r, _ | ⟨i, _ | ⟨x, t⟩⟩⟩⟩ <;>
      rw [h] at hlen <;> simp at hlen <;> simp [stringToAddress, h] <;> omega

/-- C7: from any Initialized state, whatever the current substate variant
and loading status, `setRepo` replaces the repo and resets the substate to
`READY_TO_LOAD_GRAPH / NOT_LOADING`; the resulting state carries no
dataset or result field, so nothing previously loaded is reachable. -/
theorem setRepo_resets_substate (e : EdgeEvaluator) (r r2 : Repo)
    (substate : AppSubstate GWA PND) :
    setRepo r2 (.INITIALIZED e r substate) =
      .INITIALIZED e r2 (.READY_TO_LOAD_GRAPH .NOT_LOADING) := rfl

/-- C8: from any Initialized state, `setEdgeEvaluator` replaces only the
`edgeEvaluator` field and leaves the repo and the whole substate
unchanged. -/
theorem setEdgeEvaluator_preserves_substate (e f : EdgeEvaluator) (r : Repo)
    (substate : AppSubstate GWA PND) :
    setEdgeEvaluator f (.INITIALIZED e r substate) =
      .INITIALIZED f r substate := rfl

theorem foldl_setRepo_stays_uninitialized (rs : List Repo) (rep : Option Repo) :
    ∃ rep2, rs.foldl (fun s r2 => setRepo r2 s)
        (.UNINITIALIZED none rep : AppState Repo EdgeEvaluator GWA PND)
      = .UNINITIALIZED none rep2 := by
  induction rs generalizing rep with
  | nil => exact ⟨rep, rfl⟩
  | cons r2 rs ih => simpa [setRepo, maybeInitialize] using ih (some r2)

theorem foldl_setEdgeEvaluator_stays_uninitialized (fs : List EdgeEvaluator)
    (ev : Option EdgeEvaluator) :
    ∃ ev2, fs.foldl (fun s f2 => setEdgeEvaluator f2 s)
        (.UNINITIALIZED ev none : AppState Repo EdgeEvaluator GWA PND)
      = .UNINITIALIZED ev2 none := by
  induction fs generalizing ev with
  | nil => exact ⟨ev, rfl⟩
  | cons f2 fs ih => simpa [setEdgeEvaluator, maybeInitialize] using ih (some f2)

/-- C6: from the Uninitialized initial state, `setRepo` then
`setEdgeEvaluator` (or the opposite order) reaches the Initialized state
with substate `READY_TO_LOAD_GRAPH / NOT_LOADING`; repeating just one of
the two setters, any number of times and with any arguments, never leaves
Uninitialized (so the pair of calls makes exactly one transition). -/
theorem uninitialized_transitions_once (r : Repo) (f : EdgeEvaluator)
    (rs : List Repo) (fs : List EdgeEvaluator) :
    setEdgeEvaluator f (setRepo r (initialState : AppState Repo EdgeEvaluator GWA PND))
      = .INITIALIZED f r (.READY_TO_LOAD_GRAPH .NOT_LOADING)
    ∧ setRepo r (setEdgeEvaluator f (initialState : AppState Repo EdgeEvaluator GWA PND))
      = .INITIALIZED f r (.READY_TO_LOAD_GRAPH .NOT_LOADING)
    ∧ (∃ rep2, rs.foldl (fun s r2 => setRepo r2 s)
          (initialState : AppState Repo EdgeEvaluator GWA PND)
        = .UNINITIALIZED none rep2)
    ∧ (∃ ev2, fs.foldl (fun s f2 => setEdgeEvaluator f2 s)
          (initialState : AppState Repo EdgeEvaluator GWA PND)
        = .UNINITIALIZED ev2 none) :=
  ⟨rfl, rfl, foldl_setRepo_stays_uninitialized rs none,
    foldl_setEdgeEvaluator_stays_uninitialized fs none⟩

/-- C1: when `setRepo` runs between `loadGraph`'s commit of the LOADING
marker and the loader's resolution, the load's candidate (success or
failure alike) is never committed: the live state after the load settles
is exactly the state `setRepo` produced, and `loadGraph` returns
`false`. -/
theorem setRepo_wins_against_inflight_loadGraph (e : EdgeEvaluator) (r r2 : Repo)
    (l : LoadingState) (loaderResult : Option GWA) :
    loadGraph
        (.INITIALIZED e r (.READY_TO_LOAD_GRAPH l) : AppState Repo EdgeEvaluator GWA PND)
        loaderResult (setRepo r2)
      = some (setRepo r2 (.INITIALIZED e r (.READY_TO_LOAD_GRAPH .LOADING)), false)
    ∧ setRepo r2
        (.INITIALIZED e r (.READY_TO_LOAD_GRAPH .LOADING) : AppState Repo EdgeEvaluator GWA PND)
      = .INITIALIZED e r2 (.READY_TO_LOAD_GRAPH .NOT_LOADING) := by
  constructor
  · simp [loadGraph, setRepo]
  · rfl

/-- C3: a `loadGraph` whose LOADING-marked state is still live when the
loader settles commits its candidate: on loader success the substate
becomes `READY_TO_RUN_PAGERANK / NOT_LOADING` and the call returns
`true`; on loader rejection the substate becomes
`READY_TO_LOAD_GRAPH / FAILED` and the call returns `false` — in both
cases the call resolves normally (`some`), the loader's error is never
re-thrown. -/
theorem loadGraph_commits_when_fresh (e : EdgeEvaluator) (r : Repo)
    (l : LoadingState) (gwa : GWA)
    (itf : AppState Repo EdgeEvaluator GWA PND → AppState Repo EdgeEvaluator GWA PND)
    (hfresh : itf (.INITIALIZED e r (.READY_TO_LOAD_GRAPH .LOADING))
      = .INITIALIZED e r (.READY_TO_LOAD_GRAPH .LOADING)) :
    loadGraph (.INITIALIZED e r (.READY_TO_LOAD_GRAPH l)) (some gwa) itf
      = some (.INITIALIZED e r (.READY_TO_RUN_PAGERANK gwa .NOT_LOADING), true)
    ∧ loadGraph (.INITIALIZED e r (.READY_TO_LOAD_GRAPH l)) (none : Option GWA) itf
      = some (.INITIALIZED e r (.READY_TO_LOAD_GRAPH .FAILED), false) := by
  constructor <;> simp [loadGraph, hfresh]

/-- Witness for C3: both branches at concrete inputs with no
interference. -/
theorem loadGraph_commits_when_fresh_w :
    loadGraph (.INITIALIZED 0 0 (.READY_TO_LOAD_GRAPH .NOT_LOADING) : AppState ℕ ℕ ℕ ℕ)
        (some 7) id
      = some (.INITIALIZED 0 0 (.READY_TO_RUN_PAGERANK 7 .NOT_LOADING), true)
    ∧ loadGraph (.INITIALIZED 0 0 (.READY_TO_LOAD_GRAPH .NOT_LOADING) : AppState ℕ ℕ ℕ ℕ)
        (none : Option ℕ) id
      = some (.INITIALIZED 0 0 (.READY_TO_LOAD_GRAPH .FAILED), false) :=
  loadGraph_commits_when_fresh 0 0 .NOT_LOADING 7 id rfl

/-- C2 counterexample: `runPagerank` resolves to `undefined` whether its
candidate was committed or discarded. At these concrete inputs, the first
run loses the race to a concurrent `setRepo 1` (its candidate is
discarded, the live state is the one `setRepo` made), the second run
commits, yet the caller-visible resolution values of the two promises are
identical — so the losing `runPagerank` does not report non-success to
its invoker. -/
theorem runPagerank_reports_nothing_cex :
    runPagerank (.INITIALIZED 0 0 (.READY_TO_RUN_PAGERANK 0 .NOT_LOADING) : AppState ℕ ℕ ℕ ℕ)
        (some 5) (setRepo 1)
      = some (.INITIALIZED 0 1 (.READY_TO_LOAD_GRAPH .NOT_LOADING), ())
    ∧ runPagerank (.INITIALIZED 0 0 (.READY_TO_RUN_PAGERANK 0 .NOT_LOADING) : AppState ℕ ℕ ℕ ℕ)
        (some 5) id
      = some (.INITIALIZED 0 0 (.PAGERANK_EVALUATED 0 5 .NOT_LOADING), ())
    ∧ (runPagerank (.INITIALIZED 0 0 (.READY_TO_RUN_PAGERANK 0 .NOT_LOADING) : AppState ℕ ℕ ℕ ℕ)
        (some 5) (setRepo 1)).map Prod.snd
      = (runPagerank (.INITIALIZED 0 0 (.READY_TO_RUN_PAGERANK 0 .NOT_LOADING) : AppState ℕ ℕ ℕ ℕ)
        (some 5) id).map Prod.snd := by
  refine ⟨?_, ?_, ?_⟩ <;> decide

/-- C2 amended: whenever the staleness guard of an asynchronous operation
observes a live state different from its post-LOADING snapshot, the
operation commits nothing (the live state is exactly what the
interference left); `loadGraph` additionally reports non-success by
returning `false`, while `runPagerank` resolves to `undefined` and so
gives its caller no signal at all. -/
theorem stale_guard_discards :
    (∀ (e : EdgeEvaluator) (r : Repo) (l : LoadingState) (res : Option GWA)
      (itf : AppState Repo EdgeEvaluator GWA PND → AppState Repo EdgeEvaluator GWA PND),
      itf (.INITIALIZED e r (.READY_TO_LOAD_GRAPH .LOADING))
          ≠ .INITIALIZED e r (.READY_TO_LOAD_GRAPH .LOADING) →
      loadGraph (.INITIALIZED e r (.READY_TO_LOAD_GRAPH l)) res itf
        = some (itf (.INITIALIZED e r (.READY_TO_LOAD_GRAPH .LOADING)), false))
    ∧ (∀ (e : EdgeEvaluator) (r : Repo) (gwa : GWA) (l : LoadingState) (res : Option PND)
      (itf : AppState Repo EdgeEvaluator GWA PND → AppState Repo EdgeEvaluator GWA PND),
      itf (.INITIALIZED e r (.READY_TO_RUN_PAGERANK gwa .LOADING))
          ≠ .INITIALIZED e r (.READY_TO_RUN_PAGERANK gwa .LOADING) →
      runPagerank (.INITIALIZED e r (.READY_TO_RUN_PAGERANK gwa l)) res itf
        = some (itf (.INITIALIZED e r (.READY_TO_RUN_PAGERANK gwa .LOADING)), ()))
    ∧ (∀ (e : EdgeEvaluator) (r : Repo) (gwa : GWA) (pnd : PND) (l : LoadingState)
      (res : Option PND)
      (itf : AppState Repo EdgeEvaluator GWA PND → AppState Repo EdgeEvaluator GWA PND),
      itf (.INITIALIZED e r (.PAGERANK_EVALUATED gwa pnd .LOADING))
          ≠ .INITIALIZED e r (.PAGERANK_EVALUATED gwa pnd .LOADING) →
      runPagerank (.INITIALIZED e r (.PAGERANK_EVALUATED gwa pnd l)) res itf
        = some (itf (.INITIALIZED e r (.PAGERANK_EVALUATED gwa pnd .LOADING)), ())) := by
  refine ⟨fun e r l res itf h => ?_, fun e r gwa l res itf h => ?_,
    fun e r gwa pnd l res itf h => ?_⟩ <;> simp [loadGraph, runPagerank, h]

/-- Witness for the amended C2: each of the three operations at concrete
inputs with a concurrent `setRepo 1` losing them the race. -/
theorem stale_guard_discards_w :
    loadGraph (.INITIALIZED 0 0 (.READY_TO_LOAD_GRAPH .NOT_LOADING) : AppState ℕ ℕ ℕ ℕ)
        (some 7) (setRepo 1)
      = some (.INITIALIZED 0 1 (.READY_TO_LOAD_GRAPH .NOT_LOADING), false)
    ∧ runPagerank (.INITIALIZED 0 0 (.READY_TO_RUN_PAGERANK 3 .NOT_LOADING) : AppState ℕ ℕ ℕ ℕ)
        (none : Option ℕ) (setRepo 1)
      = some (.INITIALIZED 0 1 (.READY_TO_LOAD_GRAPH .NOT_LOADING), ())
    ∧ runPagerank (.INITIALIZED 0 0 (.PAGERANK_EVALUATED 3 4 .NOT_LOADING) : AppState ℕ ℕ ℕ ℕ)
        (none : Option ℕ) (setRepo 1)
      = some (.INITIALIZED 0 1 (.READY_TO_LOAD_GRAPH .NOT_LOADING), ()) :=
  ⟨stale_guard_discards.1 0 0 .NOT_LOADING (some 7) (setRepo 1) (by decide),
    stale_guard_discards.2.1 0 0 3 .NOT_LOADING none (setRepo 1) (by decide),
    stale_guard_discards.2.2 0 0 3 4 .NOT_LOADING none (setRepo 1) (by decide)⟩

/-- C9: `loadGraphAndRunPagerank` from `READY_TO_LOAD_GRAPH` with a
rejecting loader behaves exactly like `loadGraph` alone — its outcome
does not depend on the scorer's result or on interference during a
scoring await, so the scorer is never invoked — and, when nothing
intervenes during the load, the final state is
`READY_TO_LOAD_GRAPH / FAILED`. -/
theorem loadGraphAndRunPagerank_loader_failure (e : EdgeEvaluator) (r : Repo)
    (l : LoadingState) (pr : Option PND)
    (itfL itfS : AppState Repo EdgeEvaluator GWA PND → AppState Repo EdgeEvaluator GWA PND) :
    loadGraphAndRunPagerank (.INITIALIZED e r (.READY_TO_LOAD_GRAPH l))
        (none : Option GWA) pr itfL itfS
      = (loadGraph (.INITIALIZED e r (.READY_TO_LOAD_GRAPH l)) (none : Option GWA) itfL).map
          Prod.fst
    ∧ loadGraphAndRunPagerank (.INITIALIZED e r (.READY_TO_LOAD_GRAPH l))
        (none : Option GWA) pr id itfS
      = some (.INITIALIZED e r (.READY_TO_LOAD_GRAPH .FAILED)) := by
  constructor
  · by_cases h : itfL (.INITIALIZED e r (.READY_TO_LOAD_GRAPH .LOADING))
        = .INITIALIZED e r (.READY_TO_LOAD_GRAPH .LOADING) <;>
      simp [loadGraphAndRunPagerank, loadGraph, h]
  · simp [loadGraphAndRunPagerank, loadGraph]

/-- C10: because the staleness guard compares entire states structurally,
a `setEdgeEvaluator` with an evaluator different from the current one,
run between `loadGraph`'s LOADING commit and the loader's resolution,
also makes the guard fail: the load's candidate is discarded whatever the
loader did, the live state keeps the new evaluator with the LOADING
marker, and `loadGraph` returns `false`. -/
theorem setEdgeEvaluator_during_loadGraph (e f : EdgeEvaluator) (r : Repo)
    (l : LoadingState) (loaderResult : Option GWA) (hne : f ≠ e) :
    loadGraph
        (.INITIALIZED e r (.READY_TO_LOAD_GRAPH l) : AppState Repo EdgeEvaluator GWA PND)
        loaderResult (setEdgeEvaluator f)
      = some (.INITIALIZED f r (.READY_TO_LOAD_GRAPH .LOADING), false) := by
  simp [loadGraph, setEdgeEvaluator, hne]

/-- Witness for C10 at concrete inputs. -/
theorem setEdgeEvaluator_during_loadGraph_w :
    loadGraph (.INITIALIZED 0 0 (.READY_TO_LOAD_GRAPH .NOT_LOADING) : AppState ℕ ℕ ℕ ℕ)
        (some 7) (setEdgeEvaluator 1)
      = some (.INITIALIZED 1 0 (.READY_TO_LOAD_GRAPH .LOADING), false) :=
  setEdgeEvaluator_during_loadGraph 0 1 0 .NOT_LOADING (some 7) (by decide)

end Claims
